import Mathlib

/-!
Verification of the Quantum-Business-Simulator timeline/forecast logic.

The TypeScript sources are shallowly embedded: JS numbers are modelled as
rationals (ℚ), `Math.round` as `jsRound` (floor of x + 1/2, which is JS
round-half-up on the positive values arising here), `Math.pow(g, i)` with a
natural exponent as `g ^ i`, and each `Math.random()` call site as an explicit
stream `ℕ → ℚ` of draws (one draw per month index per call site), so that the
generators become deterministic functions of the random streams.  Remote
BigQuery calls are external I/O and enter as oracle parameters describing
their outcome.  `new Date(s)` carries no information beyond the string it is
built from, so dates are modelled as that string; the wall-clock `createdAt`
field is omitted.
-/

namespace QBS

/-- JS `Math.round` for the nonnegative finite numbers used here:
round half away from zero equals `⌊x + 1/2⌋` on nonnegative inputs. -/
def jsRound (q : ℚ) : ℤ := ⌊q + 1/2⌋

/-- `TimelinePoint` from `src/types/index.ts`; `date` holds the string the JS
`Date` is constructed from. -/
structure TimelinePoint where
  month : String
  date : String
  revenue : ℚ
  probability : ℚ
  marketShare : ℚ
  customerCount : ℚ
  operatingCosts : ℚ
  keyEvents : List String
deriving DecidableEq, Repr

/-- Placeholder point used as the `getD` default when indexing timelines. -/
def dfltPoint : TimelinePoint :=
  { month := "", date := "", revenue := 0, probability := 0, marketShare := 0,
    customerCount := 0, operatingCosts := 0, keyEvents := [] }

/-- The fixed month list of `generateMockTimelineWithProfile` and
`generateMockTimeline` in `src/lib/ai-engine.ts`. -/
def monthsAi : List String :=
  ["2024-01", "2024-02", "2024-03", "2024-04", "2024-05", "2024-06",
   "2024-07", "2024-08", "2024-09", "2024-10", "2024-11", "2024-12"]

/-- `getKeyEventsForMonth` of `src/lib/ai-engine.ts` (0-based month index). -/
def getKeyEventsForMonth (monthIndex : ℕ) : List String :=
  if monthIndex = 0 then ["Product launch", "Initial marketing campaign"]
  else if monthIndex = 2 then ["First major partnership"]
  else if monthIndex = 4 then ["Series A funding round"]
  else if monthIndex = 6 then ["International expansion"]
  else if monthIndex = 8 then ["Product v2.0 release"]
  else if monthIndex = 10 then ["Holiday season push"]
  else if monthIndex = 11 then ["Year-end optimization"]
  else []

/-- The per-profile constants chosen by the `switch (profile)` of
`generateMockTimelineWithProfile`. -/
structure MockProfileParams where
  baseRevenue : ℚ
  growthRate : ℚ
  customerGrowthRate : ℚ
  marketShareGrowthRate : ℚ
deriving DecidableEq, Repr

/-- The `switch (profile)` of `generateMockTimelineWithProfile`:
aggressive, slow, and default (steady) branches. -/
def profileParams (profile : String) : MockProfileParams :=
  if profile = "aggressive" then
    { baseRevenue := 75000, growthRate := 1.20,
      customerGrowthRate := 1.18, marketShareGrowthRate := 1.12 }
  else if profile = "slow" then
    { baseRevenue := 30000, growthRate := 1.08,
      customerGrowthRate := 1.06, marketShareGrowthRate := 1.04 }
  else
    { baseRevenue := 50000, growthRate := 1.15,
      customerGrowthRate := 1.12, marketShareGrowthRate := 1.08 }

/-- `baseCustomers` ternary of `generateMockTimelineWithProfile`. -/
def baseCustomersFor (profile : String) : ℚ :=
  if profile = "aggressive" then 750 else if profile = "slow" then 300 else 500

/-- `baseMarketShare` ternary of `generateMockTimelineWithProfile`. -/
def baseMarketShareFor (profile : String) : ℚ :=
  if profile = "aggressive" then 0.03 else if profile = "slow" then 0.01 else 0.02

/-- One month of `generateMockTimelineWithProfile` (`src/lib/ai-engine.ts`,
lines 216–258).  `randV` feeds the `variance` draw and `randP` the
`probability` draw of the given month index. -/
def mockPointWithProfile (profile : String) (randV randP : ℕ → ℚ)
    (index : ℕ) (month : String) : TimelinePoint :=
  let p := profileParams profile
  let growthFactor := p.growthRate ^ index
  let variance := (randV index - 0.5) * 0.15
  let baseCustomers := baseCustomersFor profile
  let customerGrowth := p.customerGrowthRate ^ index
  let baseMarketShare := baseMarketShareFor profile
  let marketShareGrowth := p.marketShareGrowthRate ^ index
  { month := month
    date := month ++ "-01"
    revenue := (jsRound (p.baseRevenue * growthFactor * (1 + variance)) : ℚ)
    probability := 0.7 + randP index * 0.2
    marketShare := min (baseMarketShare * marketShareGrowth) 0.25
    customerCount := (jsRound (baseCustomers * customerGrowth) : ℚ)
    operatingCosts := (jsRound (p.baseRevenue * growthFactor * 0.7) : ℚ)
    keyEvents := getKeyEventsForMonth index }

/-- `generateMockTimelineWithProfile` of `src/lib/ai-engine.ts`:
`months.map((month, index) => ...)`. -/
def generateMockTimelineWithProfile (profile : String) (randV randP : ℕ → ℚ) :
    List TimelinePoint :=
  List.mapIdx (fun index month => mockPointWithProfile profile randV randP index month) monthsAi

/-- One month of `generateMockTimeline` (`src/lib/ai-engine.ts`,
lines 586–608). -/
def mockPoint (randV randP : ℕ → ℚ) (index : ℕ) (month : String) : TimelinePoint :=
  let baseRevenue : ℚ := 50000
  let growthFactor := (1.15 : ℚ) ^ index
  let variance := (randV index - 0.5) * 0.2
  let baseCustomers : ℚ := 500
  let customerGrowth := (1.12 : ℚ) ^ index
  let baseMarketShare : ℚ := 0.02
  let marketShareGrowth := (1.08 : ℚ) ^ index
  { month := month
    date := month ++ "-01"
    revenue := (jsRound (baseRevenue * growthFactor * (1 + variance)) : ℚ)
    probability := 0.7 + randP index * 0.2
    marketShare := min (baseMarketShare * marketShareGrowth) 0.25
    customerCount := (jsRound (baseCustomers * customerGrowth) : ℚ)
    operatingCosts := (jsRound (baseRevenue * growthFactor * 0.7) : ℚ)
    keyEvents := getKeyEventsForMonth index }

/-- `generateMockTimeline` of `src/lib/ai-engine.ts`. -/
def generateMockTimeline (randV randP : ℕ → ℚ) : List TimelinePoint :=
  List.mapIdx (fun index month => mockPoint randV randP index month) monthsAi

/-- Growth-profile record of `generateRealisticTimeline`
(`src/app/api/forecast/route.ts`, lines 22–47). -/
structure GrowthProfile where
  baseRevenue : ℚ
  growthRate : ℚ
  customerBase : ℚ
  customerGrowth : ℚ
  marketShareBase : ℚ
  marketShareGrowth : ℚ
deriving DecidableEq, Repr

/-- The `profiles.optimistic` record. -/
def optimisticProfile : GrowthProfile :=
  { baseRevenue := 120000, growthRate := 1.18, customerBase := 1200,
    customerGrowth := 1.15, marketShareBase := 0.04, marketShareGrowth := 1.12 }

/-- The `profiles.realistic` record. -/
def realisticProfile : GrowthProfile :=
  { baseRevenue := 75000, growthRate := 1.12, customerBase := 800,
    customerGrowth := 1.10, marketShareBase := 0.025, marketShareGrowth := 1.08 }

/-- The `profiles.conservative` record. -/
def conservativeProfile : GrowthProfile :=
  { baseRevenue := 35000, growthRate := 1.06, customerBase := 400,
    customerGrowth := 1.05, marketShareBase := 0.015, marketShareGrowth := 1.04 }

/-- Substring containment on character lists, modelling JS `String.includes`. -/
def listContainsSub (pat : List Char) : List Char → Bool
  | [] => pat.isEmpty
  | c :: rest => List.isPrefixOf pat (c :: rest) || listContainsSub pat rest

/-- JS `s.includes(pat)` on strings. -/
def strContainsSub (s pat : String) : Bool := listContainsSub pat.toList s.toList

/-- Profile selection of `generateRealisticTimeline`: keyword tests on the
lower-cased variation name. -/
def chooseProfile (variationName : String) : GrowthProfile :=
  let n := variationName.toLower
  if strContainsSub n "surge" || strContainsSub n "soars" then optimisticProfile
  else if strContainsSub n "limited" || strContainsSub n "noise" then conservativeProfile
  else realisticProfile

/-- JS `month.toString().padStart(2, '0')` on a natural number. -/
def pad2 (n : ℕ) : String := if n < 10 then "0" ++ toString n else toString n

/-- `getKeyEventsForMonth` of `src/app/api/forecast/route.ts` (1-based month). -/
def getKeyEventsForMonthRoute (month : ℕ) : List String :=
  if month = 1 then ["Product launch", "Initial marketing campaign"]
  else if month = 2 then ["User feedback analysis"]
  else if month = 3 then ["Feature enhancement", "First partnerships"]
  else if month = 4 then ["Marketing optimization"]
  else if month = 5 then ["Series A preparation", "Team expansion"]
  else if month = 6 then ["Mid-year review", "International planning"]
  else if month = 7 then ["Summer campaign launch"]
  else if month = 8 then ["Product v2.0 development"]
  else if month = 9 then ["Back-to-school targeting"]
  else if month = 10 then ["Q4 preparation", "Holiday strategy"]
  else if month = 11 then ["Black Friday campaign"]
  else if month = 12 then ["Year-end analysis", "Next year planning"]
  else []

/-- One iteration of the `for (let month = 1; month <= timeHorizon; month++)`
loop of `generateRealisticTimeline`; `index = month - 1` is the 0-based
iteration count, so `growthFactor = growthRate ^ index`. -/
def realisticPoint (profile : GrowthProfile) (randV randP : ℕ → ℚ)
    (index : ℕ) : TimelinePoint :=
  let month := index + 1
  let monthStr := "2024-" ++ pad2 month
  let growthFactor := profile.growthRate ^ index
  let customerGrowthFactor := profile.customerGrowth ^ index
  let marketShareGrowthFactor := profile.marketShareGrowth ^ index
  let variance := (randV index - 0.5) * 0.1
  let revenue := jsRound (profile.baseRevenue * growthFactor * (1 + variance))
  { month := monthStr
    date := monthStr ++ "-01"
    revenue := (revenue : ℚ)
    probability := 0.65 + randP index * 0.25
    marketShare := min (profile.marketShareBase * marketShareGrowthFactor) 0.3
    customerCount := (jsRound (profile.customerBase * customerGrowthFactor) : ℚ)
    operatingCosts := (jsRound ((revenue : ℚ) * 0.72) : ℚ)
    keyEvents := getKeyEventsForMonthRoute month }

/-- `generateRealisticTimeline` of `src/app/api/forecast/route.ts`.  The
source also receives an `index` argument it never reads; it is kept for
fidelity.  The loop runs `timeHorizon` times. -/
def generateRealisticTimeline (variationName : String) (index timeHorizon : ℕ)
    (randV randP : ℕ → ℚ) : List TimelinePoint :=
  let _ := index
  (List.range timeHorizon).map (realisticPoint (chooseProfile variationName) randV randP)

/-- JS `x || d` on an optional number: `undefined`/`null` and `0` are falsy. -/
def jsOr (o : Option ℚ) (dflt : ℚ) : ℚ :=
  match o with
  | none => dflt
  | some x => if x = 0 then dflt else x

/-- JS `s || d` on an optional string: `undefined`/`null` and `""` are falsy. -/
def jsOrStr (o : Option String) (dflt : String) : String :=
  match o with
  | none => dflt
  | some s => if s = "" then dflt else s

/-- The first row returned by the forecast route's `AI.GENERATE_TABLE` call
(`forecastSchema` of `src/app/api/forecast/route.ts`); all columns may be
absent in the remote reply. -/
structure AIInsights where
  revenue_estimate : Option ℚ
  market_share_estimate : Option ℚ
  customer_estimate : Option ℚ
  confidence_level : Option ℚ
deriving DecidableEq, Repr

/-- Truthiness of `aiInsights && aiInsights.revenue_estimate`: the merge step
runs only when `revenue_estimate` is present and nonzero (JS `0` is falsy). -/
def insightsTruthy (ins : AIInsights) : Bool :=
  match ins.revenue_estimate with
  | some r => decide (r ≠ 0)
  | none => false

/-- One point of the AI-insights adjustment
(`timeline.map((point, monthIndex) => ({...point, ...}))`,
`src/app/api/forecast/route.ts`, lines 172–178). -/
def adjustedPoint (aiRevenue aiMarketShare aiCustomers aiConfidence : ℚ)
    (randR randP : ℕ → ℚ) (monthIndex : ℕ) (point : TimelinePoint) : TimelinePoint :=
  { point with
    revenue := (jsRound (aiRevenue * (1.1 : ℚ) ^ monthIndex * (0.9 + randR monthIndex * 0.2)) : ℚ)
    marketShare := min (aiMarketShare * (1.05 : ℚ) ^ monthIndex) 0.3
    customerCount := (jsRound (aiCustomers * (1.08 : ℚ) ^ monthIndex) : ℚ)
    probability := min (aiConfidence + (randP monthIndex * 0.1 - 0.05)) 0.95 }

/-- The AI-output merging step of the forecast route's `POST`
(`src/app/api/forecast/route.ts`, lines 164–179): when the insights are
truthy the timeline is remapped, otherwise it is returned unchanged. -/
def mergeAIInsights (ins : AIInsights) (randR randP : ℕ → ℚ)
    (timeline : List TimelinePoint) : List TimelinePoint :=
  if insightsTruthy ins then
    let aiRevenue := ins.revenue_estimate.getD 0
    let aiMarketShare := jsOr ins.market_share_estimate 0.02
    let aiCustomers := jsOr ins.customer_estimate 500
    let aiConfidence := jsOr ins.confidence_level 0.75
    List.mapIdx
      (fun monthIndex point =>
        adjustedPoint aiRevenue aiMarketShare aiCustomers aiConfidence randR randP monthIndex point)
      timeline
  else timeline

/-- `calculateVariance` of `src/app/api/forecast/route.ts` (population
variance; the JS division by zero on an empty list, which yields NaN, is not
exercised by the route). -/
def calculateVariance (values : List ℚ) : ℚ :=
  let mean := values.foldl (· + ·) 0 / (values.length : ℚ)
  let squaredDiffs := values.map (fun val => (val - mean) ^ 2)
  squaredDiffs.foldl (· + ·) 0 / (values.length : ℚ)

/-- `calculateRiskLevel` of `src/app/api/forecast/route.ts`. -/
def calculateRiskLevel (timeline : List TimelinePoint) : ℤ :=
  let revenueVariance := calculateVariance (timeline.map (·.revenue))
  let confidenceAvg := (timeline.map (·.probability)).foldl (· + ·) 0 / (timeline.length : ℚ)
  jsRound ((revenueVariance * 0.6 + (1 - confidenceAvg) * 0.4) * 100)

/-- JS `Math.max(...values)`; the empty case (JS -Infinity) is modelled by a
placeholder and never exercised here. -/
def jsMax (values : List ℚ) : ℚ :=
  match values with
  | [] => 0
  | v :: rest => rest.foldl max v

/-- A `ScenarioVariation` of the forecast request body (`parameters` is an
opaque JSON blob the route only echoes back, so it is omitted). -/
structure Variation where
  name : String
  description : String
deriving DecidableEq, Repr

/-- The `summary` object built for each forecast. -/
structure ForecastSummary where
  totalRevenue : ℚ
  averageConfidence : ℚ
  peakRevenue : ℚ
  riskLevel : ℤ
deriving DecidableEq, Repr

/-- One element of the `forecasts` array of the forecast route response. -/
structure Forecast where
  variationId : String
  variationName : String
  description : String
  timeline : List TimelinePoint
  summary : ForecastSummary
deriving DecidableEq, Repr

/-- Placeholder forecast used as the `getD` default. -/
def dfltForecast : Forecast :=
  { variationId := "", variationName := "", description := "", timeline := [],
    summary := { totalRevenue := 0, averageConfidence := 0, peakRevenue := 0, riskLevel := 0 } }

/-- The forecast object a variation's map callback returns
(`src/app/api/forecast/route.ts`, lines 187–199; the catch branch at
lines 205–217 builds the identical shape from the fallback timeline). -/
def mkForecast (index : ℕ) (v : Variation) (timeline : List TimelinePoint) : Forecast :=
  { variationId := "variation_" ++ toString index
    variationName := v.name
    description := v.description
    timeline := timeline
    summary :=
      { totalRevenue := (timeline.map (·.revenue)).foldl (· + ·) 0
        averageConfidence := (timeline.map (·.probability)).foldl (· + ·) 0 / (timeline.length : ℚ)
        peakRevenue := jsMax (timeline.map (·.revenue))
        riskLevel := calculateRiskLevel timeline } }

/-- Per-variation processing of the forecast `POST`: the BigQuery call's
outcome enters as `aiInsights` (`none` models a thrown call, an empty row
set, or a falsy first row — all absorbed by the inner try/catch), then the
synthetic timeline is generated and optionally merged with the insights. -/
def processVariation (aiInsights : Option AIInsights) (timeHorizon : ℕ)
    (randV randP randR randPP : ℕ → ℚ) (index : ℕ) (v : Variation) : Forecast :=
  let timeline := generateRealisticTimeline v.name index timeHorizon randV randP
  let timeline :=
    match aiInsights with
    | some ins => mergeAIInsights ins randR randPP timeline
    | none => timeline
  mkForecast index v timeline

/-- The `baseScenario` echo of the forecast response data. -/
structure BaseInfo where
  id : String
  title : String
  description : String
deriving DecidableEq, Repr

/-- The `data` object of a successful forecast response. -/
structure ForecastData where
  baseScenario : BaseInfo
  forecasts : List Forecast
  timeHorizon : ℕ
  variationCount : ℕ
  confidence : ℚ
deriving DecidableEq, Repr

/-- The forecast route's HTTP reply (status code plus `APIResponse` body). -/
structure ForecastResponse where
  status : ℕ
  success : Bool
  data : Option ForecastData
  error : Option String
deriving DecidableEq, Repr

/-- The forecast route `POST` handler (`src/app/api/forecast/route.ts`,
lines 106–253) for a well-formed JSON body: `baseScenario`/`variations` use
`Option` for JS absence, `ai index` is the remote outcome for variation
`index`, and the four random streams are indexed by variation then month. -/
def forecastPOST (baseScenario : Option BaseInfo) (variations : Option (List Variation))
    (timeHorizon : ℕ) (ai : ℕ → Option AIInsights)
    (randV randP randR randPP : ℕ → ℕ → ℚ) : ForecastResponse :=
  match baseScenario, variations with
  | none, _ =>
      { status := 400, success := false, data := none,
        error := some "Base scenario and variations are required" }
  | some _, none =>
      { status := 400, success := false, data := none,
        error := some "Base scenario and variations are required" }
  | some _, some [] =>
      { status := 400, success := false, data := none,
        error := some "Base scenario and variations are required" }
  | some b, some (v :: rest) =>
      let vs := v :: rest
      let forecasts :=
        List.mapIdx
          (fun index variation =>
            processVariation (ai index) timeHorizon (randV index) (randP index)
              (randR index) (randPP index) index variation)
          vs
      { status := 200, success := true,
        data := some
          { baseScenario := b
            forecasts := forecasts
            timeHorizon := timeHorizon
            variationCount := vs.length
            confidence :=
              (forecasts.map (·.summary.averageConfidence)).foldl (· + ·) 0
                / (forecasts.length : ℚ) }
        error := none }

/-- `SimilarCase` from `src/types/index.ts`. -/
structure SimilarCase where
  id : String
  company : String
  industry : String
  scenario : String
  outcome : String
  similarity : ℚ
  year : ℤ
deriving DecidableEq, Repr

/-- The hard-coded `mockSimilarCases` of `src/app/api/vector-search/route.ts`. -/
def mockSimilarCases : List SimilarCase :=
  [ { id := "case_netflix_spotify", company := "Netflix Inc.",
      industry := "Entertainment/Media",
      scenario := "Strategic acquisition timing decision in streaming market",
      outcome := "Successful acquisition led to 40% increase in subscriber engagement and 25% revenue growth within 18 months",
      similarity := 0.89, year := 2019 },
    { id := "case_apple_automotive", company := "Apple Inc.",
      industry := "Technology/Automotive",
      scenario := "Market entry timing for new product category during industry disruption",
      outcome := "Delayed entry allowed for better technology integration but missed early market opportunity",
      similarity := 0.84, year := 2018 },
    { id := "case_zoom_pandemic", company := "Zoom Technologies",
      industry := "Software/Communications",
      scenario := "Product scaling decision during unexpected market surge",
      outcome := "Rapid scaling captured 300% market growth but created operational challenges",
      similarity := 0.78, year := 2020 },
    { id := "case_tesla_gigafactory", company := "Tesla Inc.",
      industry := "Automotive/Manufacturing",
      scenario := "Manufacturing expansion timing in emerging market",
      outcome := "Early expansion secured supply chain advantages and 35% cost reduction",
      similarity := 0.72, year := 2017 },
    { id := "case_shopify_covid", company := "Shopify Inc.",
      industry := "E-commerce/Technology",
      scenario := "Platform expansion during economic uncertainty",
      outcome := "Strategic timing captured small business migration, 200% user growth",
      similarity := 0.69, year := 2020 } ]

/-- Outcome of the `bigqueryAI.generateEmbedding` remote call: a vector, a
thrown `BigQueryAIError` carrying its `code`, or any other thrown error. -/
inductive EmbedOutcome where
  | ok (embedding : List ℚ)
  | errBQ (code : String) (msg : String)
  | errOther (msg : String)
deriving DecidableEq, Repr

/-- The vector-search route's HTTP reply. -/
structure VSResponse where
  status : ℕ
  success : Bool
  data : Option (List SimilarCase)
  error : Option String
deriving DecidableEq, Repr

/-- The vector-search `POST` handler (`src/app/api/vector-search/route.ts`,
lines 5–110) for a well-formed JSON body.  The embedding call sits outside
any inner try, so its failure reaches the outer catch; on success the mock
cases are sorted by descending similarity and truncated to `limit`. -/
def vectorSearchPOST (situation industry context : String) (limit : ℕ)
    (embed : EmbedOutcome) : VSResponse :=
  let _ := context
  if situation = "" ∨ industry = "" then
    { status := 400, success := false, data := none,
      error := some "Situation and industry are required" }
  else
    match embed with
    | .ok _ =>
        let filteredCases :=
          (mockSimilarCases.mergeSort (fun a b => decide (b.similarity ≤ a.similarity))).take limit
        { status := 200, success := true, data := some filteredCases, error := none }
    | .errBQ code msg =>
        { status := if code = "RATE_LIMIT_EXCEEDED" then 429 else 500,
          success := false, data := none, error := some msg }
    | .errOther _ =>
        { status := 500, success := false, data := none,
          error := some "Internal server error occurred during vector search" }

/-- `FinancialProjection` from `src/types/index.ts`. -/
structure FinancialProjection where
  metric : String
  currentValue : ℚ
  projectedValue : ℚ
  variance : ℚ
  confidence : ℚ
  timeframe : String
deriving DecidableEq, Repr

/-- `RiskFactor` from `src/types/index.ts`. -/
structure RiskFactor where
  name : String
  impact : ℚ
  probability : ℚ
  description : String
deriving DecidableEq, Repr

/-- `RiskAssessment` from `src/types/index.ts`. -/
structure RiskAssessment where
  overall : ℚ
  factors : List RiskFactor
  mitigation : List String
deriving DecidableEq, Repr

/-- `BusinessScenario` from `src/types/index.ts`; the wall-clock `createdAt`
field is omitted. -/
structure BusinessScenario where
  id : String
  title : String
  description : String
  confidence : ℚ
  query : String
  timeline : List TimelinePoint
  keyInsights : List String
  financialProjections : List FinancialProjection
  riskAssessment : RiskAssessment
  similarCases : List SimilarCase
deriving DecidableEq, Repr

/-- `generateMockFinancialProjections` of `src/lib/ai-engine.ts`. -/
def generateMockFinancialProjections : List FinancialProjection :=
  [ { metric := "Annual Revenue", currentValue := 1000000, projectedValue := 1250000,
      variance := 0.25, confidence := 85, timeframe := "12 months" },
    { metric := "Customer Acquisition Cost", currentValue := 150, projectedValue := 120,
      variance := -0.20, confidence := 78, timeframe := "6 months" } ]

/-- `generateMockRiskAssessment` of `src/lib/ai-engine.ts`. -/
def generateMockRiskAssessment : RiskAssessment :=
  { overall := 45,
    factors := [ { name := "Market Competition", impact := 60, probability := 40,
                   description := "Increased competitive pressure" } ],
    mitigation := ["Monitor competitors", "Diversify offerings"] }

/-- `generateFallbackScenarios` of `src/lib/ai-engine.ts` (lines 149–206).
The `count` argument is accepted but never read — the source always returns
the same three scenarios.  `randV k` / `randP k` are the random streams
consumed by the k-th scenario's mock timeline. -/
def generateFallbackScenarios (query : String) (count : ℕ)
    (randV randP : ℕ → ℕ → ℚ) : List BusinessScenario :=
  let _ := count
  [ { id := "scenario_1", title := "Aggressive Growth Strategy",
      description := "High-risk, high-reward approach with rapid scaling and market capture.",
      confidence := 85, query := query,
      timeline := generateMockTimelineWithProfile "aggressive" (randV 0) (randP 0),
      keyInsights :=
        ["First-mover advantage in target market",
         "Higher customer acquisition costs initially",
         "Potential for 3x faster growth rate"],
      financialProjections := generateMockFinancialProjections,
      riskAssessment := generateMockRiskAssessment,
      similarCases := [] },
    { id := "scenario_2", title := "Balanced Approach",
      description := "Moderate growth strategy balancing risk and opportunity for sustainable expansion.",
      confidence := 92, query := query,
      timeline := generateMockTimelineWithProfile "steady" (randV 1) (randP 1),
      keyInsights :=
        ["Sustainable growth with manageable risk",
         "Better resource allocation efficiency",
         "Steady market penetration over time"],
      financialProjections := generateMockFinancialProjections,
      riskAssessment := generateMockRiskAssessment,
      similarCases := [] },
    { id := "scenario_3", title := "Conservative Strategy",
      description := "Low-risk approach focusing on stability and gradual market entry.",
      confidence := 78, query := query,
      timeline := generateMockTimelineWithProfile "slow" (randV 2) (randP 2),
      keyInsights :=
        ["Minimized financial exposure and risk",
         "Thorough market validation before scaling",
         "Slower but more predictable growth"],
      financialProjections := generateMockFinancialProjections,
      riskAssessment := generateMockRiskAssessment,
      similarCases := [] } ]

/-- Outcome of the main `bigqueryAI.generateText` call of `generateScenarios`:
it either throws or returns a string. -/
inductive RemoteTextOutcome where
  | throws
  | returns (s : String)
deriving DecidableEq, Repr

/-- One parsed scenario object of the remote JSON reply (the fields
`generateScenarios` reads). -/
structure RawScenario where
  scenario_id : Option String
  title : String
  description : String
  confidence : ℚ
deriving DecidableEq, Repr

/-- Results of the per-scenario remote sub-calls of `generateScenarios`
(`generateTimeline`, `generateFinancialProjections`, `generateRiskAssessment`,
`generateKeyInsights`, `findSimilarCases`): each already absorbs its own
failures behind an internal try/catch, so only its final value matters. -/
structure ScenarioBuildEnv where
  timelineOf : ℕ → List TimelinePoint
  projectionsOf : ℕ → List FinancialProjection
  riskOf : ℕ → RiskAssessment
  insightsOf : ℕ → List String
  casesOf : ℕ → List SimilarCase

/-- The scenario object assembled in the success loop of `generateScenarios`
(`src/lib/ai-engine.ts`, lines 101–136). -/
def buildScenarioFromRaw (env : ScenarioBuildEnv) (query : String)
    (includeSimilarCases : Bool) (i : ℕ) (raw : RawScenario) : BusinessScenario :=
  { id := jsOrStr raw.scenario_id ("scenario_" ++ toString (i + 1))
    title := raw.title
    description := raw.description
    confidence := (jsRound (raw.confidence * 100) : ℚ)
    query := query
    timeline := env.timelineOf i
    keyInsights := env.insightsOf i
    financialProjections := env.projectionsOf i
    riskAssessment := env.riskOf i
    similarCases := if includeSimilarCases then env.casesOf i else [] }

/-- `generateScenarios` of `src/lib/ai-engine.ts` (lines 29–144).  `clean`
models the markdown-fence-stripping regex replace and `parse` models
`JSON.parse` (wrapped into an array when the value is not one); every throw
inside the try block lands in the catch, which returns the fallback list. -/
def generateScenarios (remote : RemoteTextOutcome) (clean : String → String)
    (parse : String → Option (List RawScenario)) (env : ScenarioBuildEnv)
    (query : String) (scenarioCount : ℕ) (includeSimilarCases : Bool)
    (randV randP : ℕ → ℕ → ℚ) : List BusinessScenario :=
  match remote with
  | .throws => generateFallbackScenarios query scenarioCount randV randP
  | .returns jsonResponse =>
    if jsonResponse.trim = "" then
      generateFallbackScenarios query scenarioCount randV randP
    else
      let cleanedResponse := (clean jsonResponse).trim
      if cleanedResponse = "" then
        generateFallbackScenarios query scenarioCount randV randP
      else
        match parse cleanedResponse with
        | none => generateFallbackScenarios query scenarioCount randV randP
        | some rawScenarios =>
            List.mapIdx
              (fun i raw => buildScenarioFromRaw env query includeSimilarCases i raw)
              (rawScenarios.take scenarioCount)

/-- One row of the `AI.GENERATE_TABLE` reply consumed by the AI engine's
`generateTimeline` (`timelineSchema` of `src/lib/ai-engine.ts`); every column
may be absent. -/
structure TimelineRow where
  month : String
  revenue : Option ℚ
  probability : Option ℚ
  market_share : Option ℚ
  customer_count : Option ℚ
  operating_costs : Option ℚ
  key_events : Option String
deriving DecidableEq, Repr

/-- JS `point.key_events ? point.key_events.split(',').map(trim) : []`. -/
def keyEventsOfField (o : Option String) : List String :=
  match o with
  | none => []
  | some s => if s = "" then [] else (s.splitOn ",").map (·.trim)

/-- The row-to-point mapping of the success path of the AI engine's
`generateTimeline` (`src/lib/ai-engine.ts`, lines 326–335): every numeric
column is defaulted with `||` and `market_share` is passed through with no
cap. -/
def timelinePointOfRow (point : TimelineRow) : TimelinePoint :=
  { month := point.month
    date := point.month ++ "-01"
    revenue := jsOr point.revenue 0
    probability := jsOr point.probability 0.5
    marketShare := jsOr point.market_share 0
    customerCount := jsOr point.customer_count 0
    operatingCosts := jsOr point.operating_costs 0
    keyEvents := keyEventsOfField point.key_events }

/-- The success branch of the AI engine's `generateTimeline`:
`timelineData.map(...)` over the remote rows. -/
def generateTimelineSuccess (timelineData : List TimelineRow) : List TimelinePoint :=
  timelineData.map timelinePointOfRow

/-- A remote table row whose `market_share` column is 0.5, exercising the
uncapped pass-through of `generateTimeline`. -/
def bigShareRow : TimelineRow :=
  { month := "2024-01", revenue := some 100000, probability := some 0.8,
    market_share := some 0.5, customer_count := some 1000,
    operating_costs := some 50000, key_events := none }

/-- Projection of a timeline point to the fields no `Math.random()` draw
flows into in the AI engine's mock generators. -/
def stableProj (pt : TimelinePoint) : String × String × ℚ × ℚ × ℚ × List String :=
  (pt.month, pt.date, pt.customerCount, pt.marketShare, pt.operatingCosts, pt.keyEvents)

theorem monthsAi_length : monthsAi.length = 12 := rfl

/-- Indexing a `List.range`-mapped list. -/
theorem getD_range_map {β : Type} (f : ℕ → β) (n i : ℕ) (hi : i < n) (d : β) :
    ((List.range n).map f).getD i d = f i := by
  simp [List.getD, List.getElem?_map, List.getElem?_range hi]

/-- Indexing a `List.mapIdx`-mapped list. -/
theorem getD_mapIdx {α β : Type} (f : ℕ → α → β) (l : List α) (i : ℕ)
    (hi : i < l.length) (d : β) (d' : α) :
    (List.mapIdx f l).getD i d = f i (l.getD i d') := by
  simp [List.getD, List.getElem?_mapIdx, List.getElem?_eq_getElem hi]

theorem length_generateMockTimelineWithProfile (profile : String) (randV randP : ℕ → ℚ) :
    (generateMockTimelineWithProfile profile randV randP).length = 12 := by
  simp [generateMockTimelineWithProfile, monthsAi]

theorem length_generateMockTimeline (randV randP : ℕ → ℚ) :
    (generateMockTimeline randV randP).length = 12 := by
  simp [generateMockTimeline, monthsAi]

theorem length_generateRealisticTimeline (name : String) (index timeHorizon : ℕ)
    (randV randP : ℕ → ℚ) :
    (generateRealisticTimeline name index timeHorizon randV randP).length = timeHorizon := by
  simp [generateRealisticTimeline]

theorem length_mergeAIInsights (ins : AIInsights) (randR randP : ℕ → ℚ)
    (timeline : List TimelinePoint) :
    (mergeAIInsights ins randR randP timeline).length = timeline.length := by
  unfold mergeAIInsights
  split <;> simp

theorem jsRound_mono {a b : ℚ} (h : a ≤ b) : jsRound a ≤ jsRound b :=
  Int.floor_le_floor (by linarith)

/-- C1 (amended): the two AI-engine mock generators return exactly twelve
monthly points for every profile and every pair of random streams; the
forecast route's `generateRealisticTimeline` returns one point per month of
its `timeHorizon` argument, hence twelve exactly when the horizon is the
default 12.  Each point carries revenue, customer count, market share and
operating cost by construction of `TimelinePoint`. -/
theorem timeline_generator_lengths :
    (∀ profile randV randP,
      (generateMockTimelineWithProfile profile randV randP).length = 12) ∧
    (∀ randV randP, (generateMockTimeline randV randP).length = 12) ∧
    (∀ name index timeHorizon randV randP,
      (generateRealisticTimeline name index timeHorizon randV randP).length = timeHorizon) :=
  ⟨length_generateMockTimelineWithProfile, length_generateMockTimeline,
   length_generateRealisticTimeline⟩

/-- C1 counterexample: with time horizon 1 the forecast route's generator
returns a single point, not twelve. -/
theorem twelve_points_counterexample :
    (generateRealisticTimeline "Base Case" 0 1 (fun _ => 0.5) (fun _ => 0.5)).length = 1 ∧
    (1 : ℕ) ≠ 12 := by
  constructor
  · simp [generateRealisticTimeline]
  · decide

/-- C2: in each synthetic generator the i-th revenue is
`round(baseRevenue * growthRate^i * (1 + v))` where `v = (u - 0.5) * w` for a
uniform draw `u ∈ [0,1)` and call-site width `w` (0.15, 0.2, 0.1), so `v`
ranges over ±7.5%, ±10% and ±5% respectively. -/
theorem revenue_geometric_with_jitter (profile name : String) (idx th : ℕ)
    (rV rP sV sP tV tP : ℕ → ℚ) (i : ℕ) :
    (i < 12 →
      ((generateMockTimelineWithProfile profile rV rP).getD i dfltPoint).revenue
        = (jsRound ((profileParams profile).baseRevenue * (profileParams profile).growthRate ^ i
            * (1 + (rV i - 0.5) * 0.15)) : ℚ)) ∧
    (0 ≤ rV i → rV i < 1 →
      -0.075 ≤ (rV i - 0.5) * 0.15 ∧ (rV i - 0.5) * 0.15 < 0.075) ∧
    (i < 12 →
      ((generateMockTimeline sV sP).getD i dfltPoint).revenue
        = (jsRound ((50000 : ℚ) * (1.15 : ℚ) ^ i * (1 + (sV i - 0.5) * 0.2)) : ℚ)) ∧
    (0 ≤ sV i → sV i < 1 →
      -0.1 ≤ (sV i - 0.5) * 0.2 ∧ (sV i - 0.5) * 0.2 < 0.1) ∧
    (i < th →
      ((generateRealisticTimeline name idx th tV tP).getD i dfltPoint).revenue
        = (jsRound ((chooseProfile name).baseRevenue * (chooseProfile name).growthRate ^ i
            * (1 + (tV i - 0.5) * 0.1)) : ℚ)) ∧
    (0 ≤ tV i → tV i < 1 →
      -0.05 ≤ (tV i - 0.5) * 0.1 ∧ (tV i - 0.5) * 0.1 < 0.05) := by
  refine ⟨?_, ?_, ?_, ?_, ?_, ?_⟩
  · intro hi
    rw [generateMockTimelineWithProfile,
      getD_mapIdx _ _ _ (by rw [monthsAi_length]; exact hi) _ ""]
    simp [mockPointWithProfile]
  · intro h0 h1
    constructor <;> nlinarith
  · intro hi
    rw [generateMockTimeline,
      getD_mapIdx _ _ _ (by rw [monthsAi_length]; exact hi) _ ""]
    simp [mockPoint]
  · intro h0 h1
    constructor <;> nlinarith
  · intro hi
    rw [generateRealisticTimeline, getD_range_map _ _ _ hi]
    simp [realisticPoint]
  · intro h0 h1
    constructor <;> nlinarith

/-- C2 witness: the aggressive-profile formula at month 0 with the constant
draw 1/2, whose jitter lies in ±7.5%. -/
theorem revenue_geometric_with_jitter_witness :
    ((generateMockTimelineWithProfile "aggressive" (fun _ => 0.5) (fun _ => 0.5)).getD 0
        dfltPoint).revenue
      = (jsRound ((profileParams "aggressive").baseRevenue
          * (profileParams "aggressive").growthRate ^ 0
          * (1 + ((0.5 : ℚ) - 0.5) * 0.15)) : ℚ) ∧
    -0.075 ≤ ((0.5 : ℚ) - 0.5) * 0.15 ∧ ((0.5 : ℚ) - 0.5) * 0.15 < 0.075 := by
  have h := revenue_geometric_with_jitter "aggressive" "x" 0 12
    (fun _ => 0.5) (fun _ => 0.5) (fun _ => 0.5) (fun _ => 0.5) (fun _ => 0.5) (fun _ => 0.5) 0
  exact ⟨h.1 (by norm_num), h.2.1 (by norm_num) (by norm_num)⟩

/-- C7: the mock generators' month, date, customerCount, marketShare,
operatingCosts and keyEvents do not depend on the random streams — two runs
with the same profile agree on all of them at every index; randomness enters
only revenue and probability. -/
theorem mock_generators_stable_fields_deterministic (profile : String)
    (rV rP sV sP : ℕ → ℚ) :
    (generateMockTimelineWithProfile profile rV rP).map stableProj
      = (generateMockTimelineWithProfile profile sV sP).map stableProj ∧
    (generateMockTimeline rV rP).map stableProj
      = (generateMockTimeline sV sP).map stableProj := by
  constructor <;>
  · apply List.ext_getElem?
    intro i
    simp only [generateMockTimelineWithProfile, generateMockTimeline, List.getElem?_map,
      List.getElem?_mapIdx, Option.map_map]
    cases h : monthsAi[i]? with
    | none => rfl
    | some m => simp [stableProj, mockPointWithProfile, mockPoint, Function.comp]

theorem one_le_customerGrowthRate (profile : String) :
    1 ≤ (profileParams profile).customerGrowthRate := by
  unfold profileParams
  split_ifs <;> norm_num

theorem baseCustomers_nonneg (profile : String) : 0 ≤ baseCustomersFor profile := by
  unfold baseCustomersFor
  split_ifs <;> norm_num

theorem chooseProfile_customer_facts (name : String) :
    1 ≤ (chooseProfile name).customerGrowth ∧ 0 ≤ (chooseProfile name).customerBase := by
  simp only [chooseProfile]
  split_ifs <;>
    constructor <;>
      norm_num [optimisticProfile, realisticProfile, conservativeProfile]

theorem jsRound_geom_mono {base g : ℚ} (hb : 0 ≤ base) (hg : 1 ≤ g) {i j : ℕ}
    (hij : i ≤ j) : jsRound (base * g ^ i) ≤ jsRound (base * g ^ j) :=
  jsRound_mono (mul_le_mul_of_nonneg_left (pow_le_pow_right₀ hg hij) hb)

/-- C10: in every synthetic timeline the customer count is non-decreasing in
the month index — each generator computes it as
`round(base * growth^i)` with `base ≥ 0`, `growth ≥ 1` and no random jitter. -/
theorem customerCount_monotone :
    (∀ profile rV rP i j, i ≤ j → j < 12 →
      ((generateMockTimelineWithProfile profile rV rP).getD i dfltPoint).customerCount
        ≤ ((generateMockTimelineWithProfile profile rV rP).getD j dfltPoint).customerCount) ∧
    (∀ rV rP i j, i ≤ j → j < 12 →
      ((generateMockTimeline rV rP).getD i dfltPoint).customerCount
        ≤ ((generateMockTimeline rV rP).getD j dfltPoint).customerCount) ∧
    (∀ name idx th rV rP i j, i ≤ j → j < th →
      ((generateRealisticTimeline name idx th rV rP).getD i dfltPoint).customerCount
        ≤ ((generateRealisticTimeline name idx th rV rP).getD j dfltPoint).customerCount) := by
  refine ⟨?_, ?_, ?_⟩
  · intro profile rV rP i j hij hj
    have hi : i < 12 := lt_of_le_of_lt hij hj
    rw [generateMockTimelineWithProfile,
      getD_mapIdx _ _ _ (by rw [monthsAi_length]; exact hi) _ "",
      getD_mapIdx _ _ _ (by rw [monthsAi_length]; exact hj) _ ""]
    simp only [mockPointWithProfile]
    exact_mod_cast jsRound_geom_mono (baseCustomers_nonneg profile)
      (one_le_customerGrowthRate profile) hij
  · intro rV rP i j hij hj
    have hi : i < 12 := lt_of_le_of_lt hij hj
    rw [generateMockTimeline,
      getD_mapIdx _ _ _ (by rw [monthsAi_length]; exact hi) _ "",
      getD_mapIdx _ _ _ (by rw [monthsAi_length]; exact hj) _ ""]
    simp only [mockPoint]
    exact_mod_cast jsRound_geom_mono (by norm_num) (by norm_num) hij
  · intro name idx th rV rP i j hij hj
    have hi : i < th := lt_of_le_of_lt hij hj
    rw [generateRealisticTimeline, getD_range_map _ _ _ hi, getD_range_map _ _ _ hj]
    simp only [realisticPoint]
    exact_mod_cast jsRound_geom_mono (chooseProfile_customer_facts name).2
      (chooseProfile_customer_facts name).1 hij

/-- C10 witness: aggressive profile, months 0 and 1. -/
theorem customerCount_monotone_witness :
    ((generateMockTimelineWithProfile "aggressive" (fun _ => 0.5) (fun _ => 0.5)).getD 0
        dfltPoint).customerCount
      ≤ ((generateMockTimelineWithProfile "aggressive" (fun _ => 0.5) (fun _ => 0.5)).getD 1
        dfltPoint).customerCount :=
  customerCount_monotone.1 "aggressive" (fun _ => 0.5) (fun _ => 0.5) 0 1
    (by norm_num) (by norm_num)

theorem getD_of_le_length {α : Type} (l : List α) (i : ℕ) (h : l.length ≤ i) (d : α) :
    l.getD i d = d := by
  simp [List.getD, List.getElem?_eq_none h]

theorem mockWithProfile_marketShare_le (profile : String) (rV rP : ℕ → ℚ) (i : ℕ) :
    ((generateMockTimelineWithProfile profile rV rP).getD i dfltPoint).marketShare ≤ 0.3 := by
  by_cases hi : i < 12
  · rw [generateMockTimelineWithProfile,
      getD_mapIdx _ _ _ (by rw [monthsAi_length]; exact hi) _ ""]
    simp only [mockPointWithProfile]
    exact le_trans (min_le_right _ _) (by norm_num)
  · rw [getD_of_le_length _ _ (by rw [length_generateMockTimelineWithProfile]; omega) _]
    norm_num [dfltPoint]

theorem mock_marketShare_le (rV rP : ℕ → ℚ) (i : ℕ) :
    ((generateMockTimeline rV rP).getD i dfltPoint).marketShare ≤ 0.3 := by
  by_cases hi : i < 12
  · rw [generateMockTimeline,
      getD_mapIdx _ _ _ (by rw [monthsAi_length]; exact hi) _ ""]
    simp only [mockPoint]
    exact le_trans (min_le_right _ _) (by norm_num)
  · rw [getD_of_le_length _ _ (by rw [length_generateMockTimeline]; omega) _]
    norm_num [dfltPoint]

theorem realistic_marketShare_le (name : String) (idx th : ℕ) (rV rP : ℕ → ℚ) (i : ℕ) :
    ((generateRealisticTimeline name idx th rV rP).getD i dfltPoint).marketShare ≤ 0.3 := by
  by_cases hi : i < th
  · rw [generateRealisticTimeline, getD_range_map _ _ _ hi]
    simp only [realisticPoint]
    exact min_le_right _ _
  · rw [getD_of_le_length _ _ (by rw [length_generateRealisticTimeline]; omega) _]
    norm_num [dfltPoint]

theorem merged_realistic_marketShare_le (ins : AIInsights) (rR rPP : ℕ → ℚ)
    (name : String) (idx th : ℕ) (rV rP : ℕ → ℚ) (i : ℕ) :
    ((mergeAIInsights ins rR rPP (generateRealisticTimeline name idx th rV rP)).getD i
      dfltPoint).marketShare ≤ 0.3 := by
  unfold mergeAIInsights
  split
  · by_cases hi : i < (generateRealisticTimeline name idx th rV rP).length
    · rw [getD_mapIdx _ _ _ hi _ dfltPoint]
      simp only [adjustedPoint]
      exact min_le_right _ _
    · rw [getD_of_le_length _ _ (by simp only [List.length_mapIdx]; omega) _]
      norm_num [dfltPoint]
  · exact realistic_marketShare_le name idx th rV rP i

/-- C8 (amended): the synthetic generators and the forecast route's
AI-merging step never exceed market share 0.3 (the mock generators cap at
0.25, the route generator and the merge step at 0.3); the cap does NOT hold
for the AI engine's `generateTimeline` success path, which passes the remote
`market_share` column through unchanged. -/
theorem marketShare_capped :
    (∀ profile rV rP i,
      ((generateMockTimelineWithProfile profile rV rP).getD i dfltPoint).marketShare ≤ 0.3) ∧
    (∀ rV rP i, ((generateMockTimeline rV rP).getD i dfltPoint).marketShare ≤ 0.3) ∧
    (∀ name idx th rV rP i,
      ((generateRealisticTimeline name idx th rV rP).getD i dfltPoint).marketShare ≤ 0.3) ∧
    (∀ ins rR rPP name idx th rV rP i,
      ((mergeAIInsights ins rR rPP (generateRealisticTimeline name idx th rV rP)).getD i
        dfltPoint).marketShare ≤ 0.3) :=
  ⟨mockWithProfile_marketShare_le, mock_marketShare_le, realistic_marketShare_le,
   merged_realistic_marketShare_le⟩

/-- C8 counterexample: a remote row with `market_share` 0.5 flows through the
AI engine's `generateTimeline` success path uncapped, violating the 0.3
bound. -/
theorem marketShare_cap_counterexample :
    ((generateTimelineSuccess [bigShareRow]).getD 0 dfltPoint).marketShare = 0.5 ∧
    ¬ (((generateTimelineSuccess [bigShareRow]).getD 0 dfltPoint).marketShare ≤ 0.3) := by
  constructor <;>
    norm_num [generateTimelineSuccess, timelinePointOfRow, bigShareRow, jsOr, List.getD]

/-- C4: when the forecast route's AI insights carry a (truthy) revenue
estimate, every timeline point gets its revenue, marketShare, customerCount
and probability replaced by curves grown from the AI estimates — probability
capped at 0.95 and marketShare at 0.3 — while month, date, operatingCosts and
keyEvents are copied unchanged from the original point. -/
theorem merge_replaces_curves_preserves_frame (tl : List TimelinePoint)
    (ins : AIInsights) (rR rP : ℕ → ℚ) (r : ℚ)
    (hr : ins.revenue_estimate = some r) (hr0 : r ≠ 0) (i : ℕ) (hi : i < tl.length) :
    (mergeAIInsights ins rR rP tl).length = tl.length ∧
    (((mergeAIInsights ins rR rP tl).getD i dfltPoint).month = (tl.getD i dfltPoint).month ∧
     ((mergeAIInsights ins rR rP tl).getD i dfltPoint).date = (tl.getD i dfltPoint).date ∧
     ((mergeAIInsights ins rR rP tl).getD i dfltPoint).operatingCosts
       = (tl.getD i dfltPoint).operatingCosts ∧
     ((mergeAIInsights ins rR rP tl).getD i dfltPoint).keyEvents
       = (tl.getD i dfltPoint).keyEvents) ∧
    (((mergeAIInsights ins rR rP tl).getD i dfltPoint).revenue
       = (jsRound (r * (1.1 : ℚ) ^ i * (0.9 + rR i * 0.2)) : ℚ) ∧
     ((mergeAIInsights ins rR rP tl).getD i dfltPoint).marketShare
       = min (jsOr ins.market_share_estimate 0.02 * (1.05 : ℚ) ^ i) 0.3 ∧
     ((mergeAIInsights ins rR rP tl).getD i dfltPoint).customerCount
       = (jsRound (jsOr ins.customer_estimate 500 * (1.08 : ℚ) ^ i) : ℚ) ∧
     ((mergeAIInsights ins rR rP tl).getD i dfltPoint).probability
       = min (jsOr ins.confidence_level 0.75 + (rP i * 0.1 - 0.05)) 0.95 ∧
     ((mergeAIInsights ins rR rP tl).getD i dfltPoint).marketShare ≤ 0.3 ∧
     ((mergeAIInsights ins rR rP tl).getD i dfltPoint).probability ≤ 0.95) := by
  have htruthy : insightsTruthy ins = true := by
    simp [insightsTruthy, hr, hr0]
  have hmerge : mergeAIInsights ins rR rP tl
      = List.mapIdx
          (fun monthIndex point =>
            adjustedPoint (ins.revenue_estimate.getD 0) (jsOr ins.market_share_estimate 0.02)
              (jsOr ins.customer_estimate 500) (jsOr ins.confidence_level 0.75)
              rR rP monthIndex point)
          tl := by
    unfold mergeAIInsights
    rw [if_pos htruthy]
  rw [hmerge, getD_mapIdx _ _ _ hi _ dfltPoint]
  refine ⟨by simp, ⟨rfl, rfl, rfl, rfl⟩, ?_, rfl, rfl, rfl, min_le_right _ _, min_le_right _ _⟩
  simp [adjustedPoint, hr]

/-- C4 witness: the merge applied to a one-point timeline with revenue
estimate 1000 keeps its length. -/
theorem merge_replaces_curves_witness :
    (mergeAIInsights ⟨some 1000, none, none, none⟩ (fun _ => 0.5) (fun _ => 0.5)
      [dfltPoint]).length = [dfltPoint].length :=
  (merge_replaces_curves_preserves_frame [dfltPoint] ⟨some 1000, none, none, none⟩
    (fun _ => 0.5) (fun _ => 0.5) 1000 rfl (by norm_num) 0 (by norm_num)).1

/-- C3: whenever the main remote text call of `generateScenarios` fails —
it throws, returns a blank string, or returns text whose cleaned form does
not parse as JSON — the catch block returns the hard-coded fallback list:
three scenarios, each with a nonempty title and description, a positive
confidence score, and a twelve-point timeline. -/
theorem scenarios_fallback_on_remote_failure (remote : RemoteTextOutcome)
    (clean : String → String) (parse : String → Option (List RawScenario))
    (env : ScenarioBuildEnv) (query : String) (count : ℕ) (inc : Bool)
    (rV rP : ℕ → ℕ → ℚ)
    (hfail : remote = RemoteTextOutcome.throws ∨
      (∃ s, remote = RemoteTextOutcome.returns s ∧ s.trim = "") ∨
      (∃ s, remote = RemoteTextOutcome.returns s ∧ s.trim ≠ "" ∧
        parse ((clean s).trim) = none)) :
    generateScenarios remote clean parse env query count inc rV rP
      = generateFallbackScenarios query count rV rP ∧
    (generateFallbackScenarios query count rV rP).length = 3 ∧
    (∀ sc ∈ generateFallbackScenarios query count rV rP,
      sc.title ≠ "" ∧ sc.description ≠ "" ∧ 0 < sc.confidence ∧
      sc.timeline.length = 12) := by
  refine ⟨?_, rfl, ?_⟩
  · rcases hfail with h | ⟨s, hs, ht⟩ | ⟨s, hs, ht, hp⟩
    · subst h; rfl
    · subst hs
      simp only [generateScenarios]
      rw [if_pos ht]
    · subst hs
      simp only [generateScenarios]
      rw [if_neg ht]
      by_cases hc : (clean s).trim = ""
      · rw [if_pos hc]
      · rw [if_neg hc, hp]
  · intro sc hsc
    simp only [generateFallbackScenarios, List.mem_cons, List.not_mem_nil, or_false] at hsc
    rcases hsc with rfl | rfl | rfl <;>
      refine ⟨?_, ?_, ?_, length_generateMockTimelineWithProfile _ _ _⟩ <;>
      · dsimp only
        decide

/-- C3 witness: a thrown remote call yields exactly the fallback list. -/
theorem scenarios_fallback_witness :
    generateScenarios RemoteTextOutcome.throws id (fun _ => none)
      ⟨fun _ => [], fun _ => [], fun _ => generateMockRiskAssessment,
       fun _ => [], fun _ => []⟩
      "What if we expand" 3 false (fun _ _ => 0.5) (fun _ _ => 0.5)
      = generateFallbackScenarios "What if we expand" 3 (fun _ _ => 0.5) (fun _ _ => 0.5) :=
  (scenarios_fallback_on_remote_failure _ _ _ _ _ _ _ _ _ (Or.inl rfl)).1

/-- C9: `generateFallbackScenarios` ignores its count argument and always
returns exactly the three scenarios with ids scenario_1/2/3 and confidences
85, 92, 78. -/
theorem fallback_scenarios_fixed (query : String) (c₁ c₂ : ℕ) (rV rP : ℕ → ℕ → ℚ) :
    (generateFallbackScenarios query c₁ rV rP).length = 3 ∧
    (generateFallbackScenarios query c₁ rV rP).map (·.id)
      = ["scenario_1", "scenario_2", "scenario_3"] ∧
    (generateFallbackScenarios query c₁ rV rP).map (·.confidence) = [85, 92, 78] ∧
    generateFallbackScenarios query c₁ rV rP = generateFallbackScenarios query c₂ rV rP :=
  ⟨rfl, rfl, rfl, rfl⟩

/-- C5 (amended): the vector-search route surfaces embedding failures rather
than falling back — when the remote embedding call fails the response has
success false (and no data); the hard-coded sample cases, sorted by
descending similarity and truncated to `limit`, are returned with success
true only when the embedding call succeeds. -/
theorem vector_search_error_surfaced (situation industry context : String)
    (limit : ℕ) (embed : EmbedOutcome)
    (hs : situation ≠ "") (hi : industry ≠ "") :
    ((∀ e, embed ≠ EmbedOutcome.ok e) →
      (vectorSearchPOST situation industry context limit embed).success = false ∧
      (vectorSearchPOST situation industry context limit embed).data = none) ∧
    (∀ e, embed = EmbedOutcome.ok e →
      (vectorSearchPOST situation industry context limit embed).success = true ∧
      (vectorSearchPOST situation industry context limit embed).data
        = some ((mockSimilarCases.mergeSort
            (fun a b => decide (b.similarity ≤ a.similarity))).take limit)) := by
  simp only [vectorSearchPOST]
  rw [if_neg (by simp [hs, hi])]
  constructor
  · intro hne
    cases embed with
    | ok e => exact absurd rfl (hne e)
    | errBQ code msg => exact ⟨rfl, rfl⟩
    | errOther msg => exact ⟨rfl, rfl⟩
  · intro e he
    subst he
    exact ⟨rfl, rfl⟩

/-- C5 witness: a failing embedding call on a valid request produces a
success-false reply with no data. -/
theorem vector_search_error_witness :
    (vectorSearchPOST "expansion timing" "technology" "" 5
        (EmbedOutcome.errBQ "RATE_LIMIT_EXCEEDED" "Rate limit exceeded")).success = false ∧
    (vectorSearchPOST "expansion timing" "technology" "" 5
        (EmbedOutcome.errBQ "RATE_LIMIT_EXCEEDED" "Rate limit exceeded")).data = none :=
  (vector_search_error_surfaced "expansion timing" "technology" "" 5
    (EmbedOutcome.errBQ "RATE_LIMIT_EXCEEDED" "Rate limit exceeded")
    (by decide) (by decide)).1 (by intro e h; cases h)

/-- C5 counterexample: the claim as stated — success true with fallback cases
on embedding failure — is false: on a valid request whose embedding call
throws, the route returns success false. -/
theorem vector_search_fallback_counterexample :
    (vectorSearchPOST "expansion timing" "technology" "" 5
        (EmbedOutcome.errOther "network failure")).success = false ∧
    (vectorSearchPOST "expansion timing" "technology" "" 5
        (EmbedOutcome.errOther "network failure")).status = 500 :=
  ⟨rfl, rfl⟩

theorem length_processVariation_timeline (aiIns : Option AIInsights) (th : ℕ)
    (rV rP rR rPP : ℕ → ℚ) (idx : ℕ) (v : Variation) :
    (processVariation aiIns th rV rP rR rPP idx v).timeline.length = th := by
  unfold processVariation mkForecast
  cases aiIns with
  | none => simp [length_generateRealisticTimeline]
  | some ins => simp [length_mergeAIInsights, length_generateRealisticTimeline]

theorem processVariation_summary (aiIns : Option AIInsights) (th : ℕ)
    (rV rP rR rPP : ℕ → ℚ) (idx : ℕ) (v : Variation) :
    (processVariation aiIns th rV rP rR rPP idx v).summary.totalRevenue
      = (((processVariation aiIns th rV rP rR rPP idx v).timeline.map (·.revenue)).foldl
          (· + ·) 0) ∧
    (processVariation aiIns th rV rP rR rPP idx v).summary.averageConfidence
      = (((processVariation aiIns th rV rP rR rPP idx v).timeline.map (·.probability)).foldl
          (· + ·) 0)
        / (((processVariation aiIns th rV rP rR rPP idx v).timeline.length : ℚ)) ∧
    (processVariation aiIns th rV rP rR rPP idx v).summary.peakRevenue
      = jsMax ((processVariation aiIns th rV rP rR rPP idx v).timeline.map (·.revenue)) ∧
    (processVariation aiIns th rV rP rR rPP idx v).summary.riskLevel
      = calculateRiskLevel (processVariation aiIns th rV rP rR rPP idx v).timeline :=
  ⟨rfl, rfl, rfl, rfl⟩

/-- C6: for any well-formed forecast body with a base scenario and a
non-empty variation list, the route answers 200/success-true with exactly one
forecast per variation, each holding a timeline of `timeHorizon` points and a
summary (totalRevenue, averageConfidence, peakRevenue, riskLevel) computed
from that timeline — for EVERY per-variation remote outcome `ai`, including
`ai = fun _ => none`, i.e. when every BigQuery AI call throws: the inner
try/catch absorbs the failure. -/
theorem forecast_post_absorbs_failures (b : BaseInfo) (vs : List Variation)
    (hvs : vs ≠ []) (th : ℕ) (ai : ℕ → Option AIInsights)
    (rV rP rR rPP : ℕ → ℕ → ℚ) :
    (forecastPOST (some b) (some vs) th ai rV rP rR rPP).status = 200 ∧
    (forecastPOST (some b) (some vs) th ai rV rP rR rPP).success = true ∧
    ∃ d, (forecastPOST (some b) (some vs) th ai rV rP rR rPP).data = some d ∧
      d.forecasts.length = vs.length ∧
      d.variationCount = vs.length ∧
      ∀ i, i < vs.length →
        ((d.forecasts.getD i dfltForecast).timeline.length = th ∧
         (d.forecasts.getD i dfltForecast).summary.totalRevenue
           = (((d.forecasts.getD i dfltForecast).timeline.map (·.revenue)).foldl (· + ·) 0) ∧
         (d.forecasts.getD i dfltForecast).summary.averageConfidence
           = (((d.forecasts.getD i dfltForecast).timeline.map (·.probability)).foldl (· + ·) 0)
             / (((d.forecasts.getD i dfltForecast).timeline.length : ℚ)) ∧
         (d.forecasts.getD i dfltForecast).summary.peakRevenue
           = jsMax ((d.forecasts.getD i dfltForecast).timeline.map (·.revenue)) ∧
         (d.forecasts.getD i dfltForecast).summary.riskLevel
           = calculateRiskLevel (d.forecasts.getD i dfltForecast).timeline) := by
  obtain ⟨v, rest, rfl⟩ := List.exists_cons_of_ne_nil hvs
  refine ⟨rfl, rfl, _, rfl, by simp [forecastPOST], rfl, ?_⟩
  intro i hi
  have hlen : i < (v :: rest).length := hi
  simp only [forecastPOST]
  rw [getD_mapIdx _ _ _ hlen _ v]
  exact ⟨length_processVariation_timeline _ _ _ _ _ _ _ _,
    processVariation_summary _ _ _ _ _ _ _ _⟩

/-- C6 witness: one variation, AI throwing everywhere, default horizon 12 —
the route still answers 200 with success true. -/
theorem forecast_post_absorbs_failures_witness :
    (forecastPOST (some ⟨"base_1", "Base", "Base scenario"⟩)
        (some [⟨"Market surge", "Demand doubles"⟩]) 12 (fun _ => none)
        (fun _ _ => 0.5) (fun _ _ => 0.5) (fun _ _ => 0.5) (fun _ _ => 0.5)).status = 200 ∧
    (forecastPOST (some ⟨"base_1", "Base", "Base scenario"⟩)
        (some [⟨"Market surge", "Demand doubles"⟩]) 12 (fun _ => none)
        (fun _ _ => 0.5) (fun _ _ => 0.5) (fun _ _ => 0.5) (fun _ _ => 0.5)).success = true := by
  have h := forecast_post_absorbs_failures ⟨"base_1", "Base", "Base scenario"⟩
    [⟨"Market surge", "Demand doubles"⟩] (by decide) 12 (fun _ => none)
    (fun _ _ => 0.5) (fun _ _ => 0.5) (fun _ _ => 0.5) (fun _ _ => 0.5)
  exact ⟨h.1, h.2.1⟩

end QBS
